import Mathlib

/-!
# Verification of the sitechime proxy backend against its specification

Shallow embedding of the request gate, token resolver, quota limiter,
proxy forwarder and terms-of-service endpoints of the Django backend
(`src/api/views.py`, `src/api/models.py`, `src/api/serializers.py`),
together with theorems settling the spec claims about them.
-/

/-- Decidable equality for `Except`, so that lookup results can be
evaluated on concrete inputs. -/
instance {ε α : Type} [DecidableEq ε] [DecidableEq α] : DecidableEq (Except ε α)
  | .error a, .error b =>
    if h : a = b then .isTrue (congrArg Except.error h)
    else .isFalse (fun hc => h (Except.error.inj hc))
  | .error _, .ok _ => .isFalse (fun hc => Except.noConfusion hc)
  | .ok _, .error _ => .isFalse (fun hc => Except.noConfusion hc)
  | .ok a, .ok b =>
    if h : a = b then .isTrue (congrArg Except.ok h)
    else .isFalse (fun hc => h (Except.ok.inj hc))

namespace Sitechime

/-! ## Python truthiness for the token extraction

`views.py` line 145:
`uuid_value = request.headers.get('X-Config-Key') or request.GET.get('uuid')`
followed by `if uuid_value:` — Python `or` and `if` treat `None` and the
empty string as falsy. -/

/-- Python truthiness of an optional string: `None` and `""` are falsy. -/
def pyTruthy : Option String → Option String
  | some t => if t = "" then none else some t
  | none => none

/-- The token value the dispatch override acts on: the `X-Config-Key` header
if truthy, else the `uuid` query parameter if truthy, else nothing. -/
def effectiveToken (header query : Option String) : Option String :=
  match pyTruthy header with
  | some h => some h
  | none => pyTruthy query

/-! ## UUID canonicalisation

Django's `UUIDField` lookup parses the incoming string with Python's
`uuid.UUID`, raising `ValueError` on a malformed value; a parsed UUID is
compared by value, i.e. after lowercasing and dropping hyphens and the
optional surrounding braces.  The `urn:uuid:` prefix form and underscore
digit separators accepted by CPython's parser are outside this model (no
claim exercises them). -/

/-- Hexadecimal digit test (both cases), as accepted by `int(hex, 16)`. -/
def isHexChar (c : Char) : Bool :=
  (('0' ≤ c && c ≤ '9') || ('a' ≤ c && c ≤ 'f') || ('A' ≤ c && c ≤ 'F'))

/-- Lowercase a hex digit. -/
def lowerHex (c : Char) : Char :=
  if 'A' ≤ c && c ≤ 'F' then Char.ofNat (c.toNat + 32) else c

/-- Python's `str.strip('{}')`: remove braces from both ends. -/
def stripBraces (cs : List Char) : List Char :=
  ((cs.dropWhile fun c => c == '{' || c == '}').reverse.dropWhile
    (fun c => c == '{' || c == '}')).reverse

/-- Canonical form of a UUID-shaped token, or `none` for a malformed value
(the `ValueError` path of `uuid.UUID`):
strip surrounding braces, drop hyphens, require exactly 32 hex digits,
lowercase them. -/
def pyUuidCanon (s : String) : Option String :=
  let hexs := (stripBraces s.data).filter (fun c => ¬(c == '-'))
  if hexs.length == 32 && hexs.all isHexChar then
    some (String.mk (hexs.map lowerHex))
  else none

/-! ## The data model (`src/api/models.py`)

`JsonData` holds, besides the JSON payload itself (not referenced by any
claim), the access-control attributes: owning user, unique `uuid` token
and the `is_public` flag.  We store the uuid in canonical form. -/

/-- A `JsonData` record, restricted to the fields the access-control claims
are about. `uuid` is kept in canonical 32-hex-digit form. -/
structure JsonData where
  user : String
  name : String
  uuid : String
  is_public : Bool
deriving DecidableEq, Repr

/-- The document store: the `JsonData` table. -/
abbrev Store := List JsonData

/-- Source field `uuid = models.UUIDField(..., unique=True)`: the database enforces
pairwise distinct uuids. -/
def UuidUnique (store : Store) : Prop :=
  store.Pairwise (fun a b => a.uuid ≠ b.uuid)

/-! ## `JsonData.objects.get(uuid=..., is_public=True)` -/

/-- The ways a Django `objects.get` lookup fails: no matching row
(`DoesNotExist`), malformed lookup value (`ValueError` from the UUID
parse), or more than one matching row (`MultipleObjectsReturned`, which
`OpenAIProxyView.dispatch` does NOT catch). -/
inductive GetError where
  | doesNotExist
  | valueError
  | multipleReturned
deriving DecidableEq, Repr

/-- The lookup `JsonData.objects.get(uuid=uuid_value, is_public=True)`
(`views.py` line 150): parse the token, then require exactly one public
record with that uuid. -/
def objectsGetPublic (store : Store) (token : String) : Except GetError JsonData :=
  match pyUuidCanon token with
  | none => .error .valueError
  | some c =>
    match store.filter (fun r => r.uuid == c && r.is_public) with
    | [] => .error .doesNotExist
    | [r] => .ok r
    | _ :: _ :: _ => .error .multipleReturned

/-- Token resolution as performed by the `try`/`except` in
`OpenAIProxyView.dispatch` (`views.py` lines 147-160): `DoesNotExist` and
`ValueError` are caught and mean unauthenticated (`.ok none`);
`MultipleObjectsReturned` is not caught and propagates (`.error`). -/
def resolveToken (store : Store) (token : String) : Except GetError (Option String) :=
  match objectsGetPublic store token with
  | .ok r => .ok (some r.user)
  | .error .doesNotExist => .ok none
  | .error .valueError => .ok none
  | .error .multipleReturned => .error .multipleReturned

/-! ## The dispatch override (`OpenAIProxyView.dispatch`) -/

/-- Entries written to the security log by the dispatch override. -/
inductive SecEvent where
  | authSuccess (user token : String)
  | authFailure (token : String)
deriving DecidableEq, Repr

/-- An inbound proxy request as far as the gate claims are concerned:
HTTP method, the two token carriers, and the (session) user the request
already carries, if any. -/
structure HttpRequest where
  method : String
  headerXConfigKey : Option String
  queryUuid : Option String
  user : Option String
deriving DecidableEq, Repr

/-- The token-authentication phase of `OpenAIProxyView.dispatch`
(`views.py` lines 140-163): extract the token; on a successful public
lookup attach the owner to the request and log a success; on
`DoesNotExist`/`ValueError` log a warning and leave the request user
unchanged; in every case fall through to the regular dispatch.
Returns the (possibly updated) request user and the security-log entries;
`.error` is the uncaught `MultipleObjectsReturned`. -/
def dispatchAuth (store : Store) (req : HttpRequest) :
    Except GetError (Option String × List SecEvent) :=
  match effectiveToken req.headerXConfigKey req.queryUuid with
  | none => .ok (req.user, [])
  | some v =>
    match objectsGetPublic store v with
    | .ok r => .ok (some r.user, [SecEvent.authSuccess r.user v])
    | .error .doesNotExist => .ok (req.user, [SecEvent.authFailure v])
    | .error .valueError => .ok (req.user, [SecEvent.authFailure v])
    | .error .multipleReturned => .error .multipleReturned

/-- Store-level effect of `JsonData.make_private` (`models.py` lines
50-55) on the record carrying the given (canonical) uuid: set
`is_public = False` and save; nothing is deleted. -/
def make_private (store : Store) (t : String) : Store :=
  store.map (fun r => if r.uuid == t then { r with is_public := false } else r)

/-! ## The quota limiter

The `ratelimit(key='user', rate='1/m', method='POST')` decorator on
`RateLimitedProxyView.post` (`views.py` line 119) delegates the counting
to the `django_ratelimit` library, which is not part of this repository.
The window algorithm is therefore modelled from the spec (§4.2). -/

/-- A per-identity quota window: start time and number of admitted
requests in the current window. -/
structure LimiterState where
  windowStart : Nat
  count : Nat
deriving DecidableEq, Repr

/-- Modelled from the spec: the Quota Limiter's `admit` (spec §4.2) —
the counting logic lives in the external `django_ratelimit` package, not
under `src/`.  If the period has elapsed, reset count to 0 and
`windowStart` to `now` first; then admit (and increment) iff the count is
under the limit, else reject without mutating state. -/
def admitCheck (limit period now : Nat) (st : LimiterState) : Bool × LimiterState :=
  let st1 := if st.windowStart + period ≤ now then ⟨now, 0⟩ else st
  if st1.count < limit then (true, ⟨st1.windowStart, st1.count + 1⟩)
  else (false, st1)

/-- A sequence of admit calls for one identity at the given times. -/
def admitTrace (limit period : Nat) : LimiterState → List Nat → List Bool × LimiterState
  | st, [] => ([], st)
  | st, t :: ts =>
    let p := admitCheck limit period t st
    let q := admitTrace limit period p.2 ts
    (p.1 :: q.1, q.2)

/-! ## The request pipeline (`RateLimitedProxyView` / `OpenAIProxyView`) -/

/-- Outcome of one pass through the proxy pipeline. `status` is 200 for
the forwarded/passthrough path and 429 for a quota rejection;
`admitCalled` records whether the rate limiter was consulted at all. -/
structure GateResult where
  status : Nat
  forwarded : Bool
  admitCalled : Bool
  finalUser : Option String
  secLog : List SecEvent
  limiter : LimiterState
deriving DecidableEq, Repr

/-- The proxy request pipeline as wired in `src/api/views.py`:
`OpenAIProxyView.dispatch` runs the token-authentication phase and then
falls through to the regular dispatch; only the `post` handler is wrapped
by the `ratelimit` decorator (`method='POST'`), so only POST requests
consult the limiter — every other method is forwarded directly.  An
admitted or non-POST request is forwarded (status 200 stands for the
upstream passthrough); a limiter rejection ends the request with 429
(the spec's §7 mapping of `QuotaExceeded`). -/
def handleProxyRequest (store : Store) (limit period now : Nat)
    (ls : LimiterState) (req : HttpRequest) : Except GetError GateResult :=
  match dispatchAuth store req with
  | .error e => .error e
  | .ok (u, log) =>
    if req.method = "POST" then
      let p := admitCheck limit period now ls
      if p.1 then
        .ok { status := 200, forwarded := true, admitCalled := true,
              finalUser := u, secLog := log, limiter := p.2 }
      else
        .ok { status := 429, forwarded := false, admitCalled := true,
              finalUser := u, secLog := log, limiter := p.2 }
    else
      .ok { status := 200, forwarded := true, admitCalled := false,
            finalUser := u, secLog := log, limiter := ls }

/-! ## Streaming attributes of `OpenAIProxyView` (`views.py` lines 110-138) -/

namespace OpenAIProxyView

/-- Source line `chunk_size = 32  # Optimal chunk size for streaming (8KB)` — the
value set in the source is 32 (bytes), while its own trailing comment
says 8KB. -/
def chunk_size : Nat := 32

/-- Source line `stream = True  # Enable streaming responses`. -/
def stream : Bool := true

/-- Source line `timeout = 30  # Set timeout for upstream requests`. -/
def timeout : Nat := 30

/-- Source line `retries = 1  # Allow one retry`. -/
def retries : Nat := 1

/-- A typical network MTU in bytes, the spec's reference unit for the
chunk size ("a small multiple of a typical network MTU, e.g. tens of
KB"). -/
def typicalMTU : Nat := 1500

end OpenAIProxyView

/-! ## The Proxy Forwarder's retry discipline

`OpenAIProxyView` sets `retries = 1`; the connection/retry machinery
itself lives in the external `revproxy`/`urllib3` stack, not under
`src/`.  The retry loop is therefore modelled from the spec (§4.3). -/

/-- What one connection attempt to the upstream does: fail to connect, or
start streaming a response body (`clean` records whether the stream ended
cleanly — a post-stream-start failure has `clean = false`). -/
inductive AttemptOutcome where
  | connectFail
  | streamStart (chunks : List Nat) (clean : Bool)
deriving DecidableEq, Repr

/-- Result of the forwarder: upstream unavailable after exhausting
retries, or a (possibly truncated) streamed response. -/
inductive ForwardResult where
  | upstreamUnavailable
  | streamed (chunks : List Nat) (clean : Bool)
deriving DecidableEq, Repr

/-- Modelled from the spec: the Forwarder's bounded retry loop (spec
§4.3) — the implementation lives in the external `revproxy`/`urllib3`
stack, not under `src/`.  `attempts i` is the upstream's behaviour on the
`i`-th attempt (each attempt resends the same request); on a
connection-establishment failure the loop retries while retries remain;
once any attempt has started streaming, its outcome is final — cleanly
ended or truncated, no further attempt is made.  Returns the result and
the total number of attempts made, starting from attempt index `i`. -/
def forwardLoop (attempts : Nat → AttemptOutcome) :
    Nat → Nat → ForwardResult × Nat
  | retriesLeft, i =>
    match attempts i with
    | .streamStart chunks clean => (.streamed chunks clean, i + 1)
    | .connectFail =>
      match retriesLeft with
      | 0 => (.upstreamUnavailable, i + 1)
      | n + 1 => forwardLoop attempts n (i + 1)

/-- Forward one request with up to `maxRetries` retries after the initial
attempt; the second component is the total number of attempts made. -/
def forward (maxRetries : Nat) (attempts : Nat → AttemptOutcome) :
    ForwardResult × Nat :=
  forwardLoop attempts maxRetries 0

/-! ## Outbound request construction

`OpenAIProxyView.get_proxy_request_headers` (`views.py` lines 165-179)
takes the headers produced by the `revproxy` base class and overwrites
three of them.  The base class is library code not under `src/` and is
modelled from the spec (§4.3). -/

/-- Headers as an association list with unique keys. -/
abbrev Headers := List (String × String)

/-- Look a header up by name (first match; keys are unique). -/
def getHeader : Headers → String → Option String
  | [], _ => none
  | p :: t, k => if p.1 == k then some p.2 else getHeader t k

/-- Python `dict` update of one key: replace the value in place if the
key is present, else append the pair. -/
def setHeader : Headers → String → String → Headers
  | [], k, v => [(k, v)]
  | p :: t, k, v => if p.1 == k then (k, v) :: t else p :: setHeader t k v

/-- Modelled from the spec: the header set produced by `revproxy`'s base
`ProxyView` (library code not under `src/`): inbound headers are
forwarded except the hop-by-hop ones conflicting with the new connection
(`Host`, the original `Connection` value), and — since the source sets
`add_remote_user = True` — an identity marker header is added for an
authenticated caller (spec §4.3). -/
def base_proxy_request_headers (inbound : Headers) (identity : Option String) :
    Headers :=
  let hs := inbound.filter (fun p => ¬(p.1 == "Host") && ¬(p.1 == "Connection"))
  match identity with
  | some u => setHeader hs ("Remote-User") u
  | none => hs

/-- The override `OpenAIProxyView.get_proxy_request_headers`: take the base headers
and update `Accept-Encoding`, `Connection` and `Transfer-Encoding`
(`views.py` lines 165-179). -/
def get_proxy_request_headers (inbound : Headers) (identity : Option String) :
    Headers :=
  let hs := base_proxy_request_headers inbound identity
  setHeader
    (setHeader (setHeader hs ("Accept-Encoding") ("gzip, deflate"))
      ("Connection") ("keep-alive"))
    ("Transfer-Encoding") ("chunked")

/-- An inbound request to be forwarded: method, path suffix, query string,
body and headers. -/
structure InboundRequest where
  method : String
  path : String
  query : String
  body : List Nat
  headers : Headers
deriving DecidableEq, Repr

/-- The outbound request sent to the upstream. -/
structure OutboundRequest where
  method : String
  url : String
  query : String
  body : List Nat
  headers : Headers
deriving DecidableEq, Repr

/-- Build the outbound upstream request: rewrite only the host/path to
the configured upstream base, preserve method, query and body, and attach
the proxy request headers. -/
def buildUpstreamRequest (upstreamBase : String) (req : InboundRequest)
    (identity : Option String) : OutboundRequest :=
  { method := req.method
    url := upstreamBase ++ req.path
    query := req.query
    body := req.body
    headers := get_proxy_request_headers req.headers identity }

/-! ## Terms-and-conditions acceptance (`src/api/serializers.py`,
`src/api/views.py`) -/

/-- A `TncAcceptance` record (`models.py` lines 57-64). -/
structure TncAcceptance where
  config_id : String
  ip_address : String
  accepted_at : Nat
  user_agent : Option String
deriving DecidableEq, Repr

/-- The `TncAcceptance` table has no uniqueness constraint in the model;
this predicate states that the `(config_id, ip_address)` pairs are
pairwise distinct — the invariant the serializer's create path maintains. -/
def PairUnique (store : List TncAcceptance) : Prop :=
  store.Pairwise
    (fun a b => ¬(a.config_id = b.config_id ∧ a.ip_address = b.ip_address))

/-- The in-place update the serializer performs on the matching record:
set `accepted_at` to now and overwrite `user_agent` only when one was
supplied (`if 'user_agent' in validated_data`). -/
def tncUpdate (cid ip : String) (now : Nat) (ua : Option String)
    (r : TncAcceptance) : TncAcceptance :=
  if r.config_id == cid && r.ip_address == ip then
    { r with accepted_at := now,
             user_agent := match ua with
               | some a => some a
               | none => r.user_agent }
  else r

/-- The method `TncAcceptanceSerializer.create` (`serializers.py` lines 52-74):
look for an existing record with the same `(config_id, ip_address)`; if
exactly one exists, update its `accepted_at` (and `user_agent` when
supplied) in place; if none exists, append a new record; if several
exist, `objects.get` raises `MultipleObjectsReturned`, which is not
caught. -/
def tncSerializerCreate (store : List TncAcceptance) (cid ip : String)
    (now : Nat) (ua : Option String) : Except GetError (List TncAcceptance) :=
  match store.filter (fun r => r.config_id == cid && r.ip_address == ip) with
  | [] => .ok (store ++ [{ config_id := cid, ip_address := ip,
                           accepted_at := now, user_agent := ua }])
  | [_] => .ok (store.map (tncUpdate cid ip now ua))
  | _ :: _ :: _ => .error .multipleReturned

/-- The view `check_tnc_acceptance` (`views.py` lines 219-247): single-record
lookup by `(config_id, ip_address)`; `DoesNotExist` is caught and means
"not accepted" (`.ok none`); `MultipleObjectsReturned` is not caught. -/
def check_tnc_acceptance (store : List TncAcceptance) (cid ip : String) :
    Except GetError (Option Nat) :=
  match store.filter (fun r => r.config_id == cid && r.ip_address == ip) with
  | [] => .ok none
  | [r] => .ok (some r.accepted_at)
  | _ :: _ :: _ => .error .multipleReturned

/-! ## Helper lemmas -/

/-- A filter whose predicate pins a pairwise-distinct key keeps at most
one element. -/
theorem length_filter_le_one {α κ : Type} (key : α → κ) (p : α → Bool) (k : κ)
    (hp : ∀ a, p a = true → key a = k) (l : List α)
    (hU : l.Pairwise (fun a b => key a ≠ key b)) :
    (l.filter p).length ≤ 1 := by
  rcases hf : l.filter p with _ | ⟨a, _ | ⟨b, t⟩⟩
  · simp
  · simp
  · exfalso
    have hPW := hU.filter p
    rw [hf] at hPW
    have hane : key a ≠ key b :=
      (List.pairwise_cons.mp hPW).1 b (List.mem_cons_self b t)
    have haf : a ∈ l.filter p := by
      rw [hf]; exact List.mem_cons_self a (b :: t)
    have hbf : b ∈ l.filter p := by
      rw [hf]; exact List.mem_cons.mpr (Or.inr (List.mem_cons_self b t))
    exact hane (((hp a (List.mem_filter.mp haf).2)).trans
      ((hp b (List.mem_filter.mp hbf).2)).symm)

/-- At most one record in a uuid-unique store matches a given uuid and
the public flag. -/
theorem jsonData_filter_le_one (store : Store) (hU : UuidUnique store)
    (c : String) :
    (store.filter (fun r => r.uuid == c && r.is_public)).length ≤ 1 := by
  have hU' : store.Pairwise (fun a b => a.uuid ≠ b.uuid) := hU
  refine length_filter_le_one (fun r => r.uuid)
    (fun r => r.uuid == c && r.is_public) c (fun a ha => ?_) store hU'
  exact eq_of_beq ((Bool.and_eq_true _ _).mp ha).1

/-- Characterisation of the public-record lookup in a uuid-unique store. -/
theorem objectsGetPublic_ok_iff (store : Store) (hU : UuidUnique store)
    (token : String) (r : JsonData) :
    objectsGetPublic store token = .ok r ↔
      (pyUuidCanon token = some r.uuid ∧ r ∈ store ∧ r.is_public = true) := by
  rcases hc : pyUuidCanon token with _ | c
  · simp [objectsGetPublic, hc]
  · rcases hf : store.filter (fun x => x.uuid == c && x.is_public)
      with _ | ⟨a, _ | ⟨b, t⟩⟩
    · simp only [objectsGetPublic, hc, hf]
      constructor
      · intro h; exact absurd h (by simp)
      · rintro ⟨hcan, hmem, hpub⟩
        have hcu : c = r.uuid := Option.some.inj hcan
        have hrf : r ∈ store.filter (fun x => x.uuid == c && x.is_public) :=
          List.mem_filter.mpr ⟨hmem, by simp [← hcu, hpub]⟩
        rw [hf] at hrf
        exact absurd hrf (by simp)
    · simp only [objectsGetPublic, hc, hf]
      have haf : a ∈ store.filter (fun x => x.uuid == c && x.is_public) := by
        rw [hf]; exact List.mem_cons_self a []
      have hmema := List.mem_filter.mp haf
      have hpa := (Bool.and_eq_true _ _).mp hmema.2
      constructor
      · intro h
        have har : a = r := Except.ok.inj h
        subst har
        refine ⟨?_, hmema.1, by simpa using hpa.2⟩
        rw [eq_of_beq hpa.1]
      · rintro ⟨hcan, hmem, hpub⟩
        have hcu : c = r.uuid := Option.some.inj hcan
        have hrf : r ∈ store.filter (fun x => x.uuid == c && x.is_public) :=
          List.mem_filter.mpr ⟨hmem, by simp [← hcu, hpub]⟩
        rw [hf] at hrf
        have : r = a := by simpa using hrf
        rw [this]
    · exfalso
      have := jsonData_filter_le_one store hU c
      rw [hf] at this
      simp at this

/-- In a uuid-unique store the lookup never raises
`MultipleObjectsReturned`. -/
theorem objectsGetPublic_ne_multiple (store : Store) (hU : UuidUnique store)
    (token : String) :
    objectsGetPublic store token ≠ .error .multipleReturned := by
  rcases hc : pyUuidCanon token with _ | c
  · simp [objectsGetPublic, hc]
  · rcases hf : store.filter (fun x => x.uuid == c && x.is_public)
      with _ | ⟨a, _ | ⟨b, t⟩⟩
    · simp [objectsGetPublic, hc, hf]
    · simp [objectsGetPublic, hc, hf]
    · exfalso
      have := jsonData_filter_le_one store hU c
      rw [hf] at this
      simp at this

/-- When no public record matches, the lookup fails with a caught
exception (`DoesNotExist` or `ValueError`). -/
theorem objectsGetPublic_fail (store : Store) (hU : UuidUnique store)
    (token : String)
    (hno : ¬ ∃ r, r ∈ store ∧ pyUuidCanon token = some r.uuid ∧
      r.is_public = true) :
    objectsGetPublic store token = .error .doesNotExist ∨
      objectsGetPublic store token = .error .valueError := by
  rcases hg : objectsGetPublic store token with e | r
  · rcases e with _ | _ | _
    · exact Or.inl rfl
    · exact Or.inr rfl
    · exact absurd hg (objectsGetPublic_ne_multiple store hU token)
  · exfalso
    have := (objectsGetPublic_ok_iff store hU token r).mp hg
    exact hno ⟨r, this.2.1, this.1, this.2.2⟩

/-- Under uuid-uniqueness, token resolution never raises an uncaught
exception. -/
theorem resolveToken_ne_error (store : Store) (hU : UuidUnique store)
    (token : String) (e : GetError) :
    resolveToken store token ≠ .error e := by
  rcases hg : objectsGetPublic store token with e' | r
  · rcases e' with _ | _ | _
    · simp [resolveToken, hg]
    · simp [resolveToken, hg]
    · exact absurd hg (objectsGetPublic_ne_multiple store hU token)
  · simp [resolveToken, hg]

/-- After `make_private`, no record passes the public lookup filter for
that uuid. -/
theorem make_private_filter_nil (store : Store) (t : String) :
    (make_private store t).filter (fun x => x.uuid == t && x.is_public) = [] := by
  rw [List.filter_eq_nil_iff]
  intro x hx
  rcases List.mem_map.mp hx with ⟨r, hr, hfx⟩
  by_cases hrt : r.uuid == t
  · rw [if_pos hrt] at hfx
    rw [← hfx]
    simp
  · rw [if_neg hrt] at hfx
    rw [← hfx]
    simp [hrt]

/-- After `make_private`, the public lookup on that uuid raises (and the
dispatch catches) `DoesNotExist`. -/
theorem objectsGetPublic_make_private (store : Store) (token t : String)
    (hc : pyUuidCanon token = some t) :
    objectsGetPublic (make_private store t) token = .error .doesNotExist := by
  simp [objectsGetPublic, hc, make_private_filter_nil store t]

/-- An in-window admit under the limit: count up and return true. -/
theorem admitCheck_inWindow_true (limit period now : Nat) (st : LimiterState)
    (hno : ¬ st.windowStart + period ≤ now) (hcnt : st.count < limit) :
    admitCheck limit period now st = (true, ⟨st.windowStart, st.count + 1⟩) := by
  simp [admitCheck, hno, hcnt]

/-- An in-window admit at the limit: reject, state untouched. -/
theorem admitCheck_inWindow_false (limit period now : Nat) (st : LimiterState)
    (hno : ¬ st.windowStart + period ≤ now) (hcnt : ¬ st.count < limit) :
    admitCheck limit period now st = (false, st) := by
  simp [admitCheck, hno, hcnt]

/-- One step of `admitTrace`. -/
theorem admitTrace_cons (limit period t : Nat) (ts : List Nat)
    (st : LimiterState) :
    admitTrace limit period st (t :: ts) =
      ((admitCheck limit period t st).1 ::
        (admitTrace limit period (admitCheck limit period t st).2 ts).1,
       (admitTrace limit period (admitCheck limit period t st).2 ts).2) := rfl

/-- Within one window (no call at or after `windowStart + period`), the
number of successful admits is bounded by the remaining capacity. -/
theorem admitTrace_count_le (limit period : Nat) :
    ∀ (times : List Nat) (st : LimiterState),
      (∀ t ∈ times, t < st.windowStart + period) →
      (admitTrace limit period st times).1.count true ≤ limit - st.count := by
  intro times
  induction times with
  | nil => intro st _; simp [admitTrace]
  | cons t ts ih =>
    intro st hw
    have ht : t < st.windowStart + period := hw t (List.mem_cons_self t ts)
    have hno : ¬ st.windowStart + period ≤ t := by omega
    have hw' : ∀ x ∈ ts, x < st.windowStart + period :=
      fun x hx => hw x (List.mem_cons.mpr (Or.inr hx))
    by_cases hcnt : st.count < limit
    · have hstep := admitCheck_inWindow_true limit period t st hno hcnt
      have hih : (admitTrace limit period ⟨st.windowStart, st.count + 1⟩
          ts).1.count true ≤ limit - (st.count + 1) :=
        ih ⟨st.windowStart, st.count + 1⟩ hw'
      calc (admitTrace limit period st (t :: ts)).1.count true
          = (admitTrace limit period ⟨st.windowStart, st.count + 1⟩
              ts).1.count true + 1 := by
            rw [admitTrace_cons, hstep]; simp
        _ ≤ limit - st.count := by omega
    · have hstep := admitCheck_inWindow_false limit period t st hno hcnt
      have hih := ih st hw'
      calc (admitTrace limit period st (t :: ts)).1.count true
          = (admitTrace limit period st ts).1.count true := by
            rw [admitTrace_cons, hstep]; simp
        _ ≤ limit - st.count := hih

/-- Reduction of the pipeline for a POST request once the dispatch-auth
phase is known. -/
theorem handleProxyRequest_post (store : Store) (limit period now : Nat)
    (ls : LimiterState) (req : HttpRequest) (u : Option String)
    (log : List SecEvent)
    (hd : dispatchAuth store req = .ok (u, log)) (hm : req.method = "POST") :
    handleProxyRequest store limit period now ls req =
      (if (admitCheck limit period now ls).1 then
        .ok { status := 200, forwarded := true, admitCalled := true,
              finalUser := u, secLog := log,
              limiter := (admitCheck limit period now ls).2 }
      else
        .ok { status := 429, forwarded := false, admitCalled := true,
              finalUser := u, secLog := log,
              limiter := (admitCheck limit period now ls).2 }) := by
  simp [handleProxyRequest, hd, hm]

/-- Reduction of the pipeline for a non-POST request once the
dispatch-auth phase is known. -/
theorem handleProxyRequest_other (store : Store) (limit period now : Nat)
    (ls : LimiterState) (req : HttpRequest) (u : Option String)
    (log : List SecEvent)
    (hd : dispatchAuth store req = .ok (u, log))
    (hm : ¬ req.method = "POST") :
    handleProxyRequest store limit period now ls req =
      .ok { status := 200, forwarded := true, admitCalled := false,
            finalUser := u, secLog := log, limiter := ls } := by
  simp [handleProxyRequest, hd, hm]

/-! ## Claim theorems -/

/-- C1 (amended): an inbound proxy request presenting a (truthy) token
value that does not resolve to a public record is NOT rejected with 403;
the dispatch override logs exactly one security event and falls through
to the regular dispatch as the unchanged (anonymous) caller, and for a
POST request the quota limiter is still consulted. -/
theorem C1_invalid_token_fallthrough (store : Store) (req : HttpRequest)
    (limit period now : Nat) (ls : LimiterState) (token : String)
    (heff : effectiveToken req.headerXConfigKey req.queryUuid = some token)
    (hbad : objectsGetPublic store token = .error .doesNotExist ∨
            objectsGetPublic store token = .error .valueError) :
    dispatchAuth store req = .ok (req.user, [SecEvent.authFailure token])
  ∧ (∀ r, handleProxyRequest store limit period now ls req = .ok r →
      r.secLog = [SecEvent.authFailure token] ∧ r.finalUser = req.user ∧
      r.status ≠ 403 ∧ (req.method = "POST" → r.admitCalled = true)) := by
  have hd : dispatchAuth store req =
      .ok (req.user, [SecEvent.authFailure token]) := by
    rcases hbad with h | h <;> simp [dispatchAuth, heff, h]
  refine ⟨hd, fun r hr => ?_⟩
  by_cases hm : req.method = "POST"
  · rw [handleProxyRequest_post store limit period now ls req _ _ hd hm] at hr
    by_cases hp : (admitCheck limit period now ls).1
    · rw [if_pos hp] at hr
      cases Except.ok.inj hr
      exact ⟨rfl, rfl, by simp, fun _ => rfl⟩
    · rw [if_neg hp] at hr
      cases Except.ok.inj hr
      exact ⟨rfl, rfl, by simp, fun _ => rfl⟩
  · rw [handleProxyRequest_other store limit period now ls req _ _ hd hm] at hr
    cases Except.ok.inj hr
    exact ⟨rfl, rfl, by simp, fun hmp => absurd hmp hm⟩

/-- Counterexample to C1 as stated: with an empty store, a POST request
presenting the invalid token `garbage-token` is not answered 403 — it is
admitted by the limiter (which is consulted, mutating the window) and
forwarded anonymously, with one security-log entry. -/
theorem C1_counterexample :
    handleProxyRequest [] 1 60 0 ⟨0, 0⟩
      { method := "POST", headerXConfigKey := some ("garbage-token"),
        queryUuid := none, user := none } =
      .ok { status := 200, forwarded := true, admitCalled := true,
            finalUser := none,
            secLog := [SecEvent.authFailure ("garbage-token")],
            limiter := ⟨0, 1⟩ } ∧ (200 : Nat) ≠ 403 :=
  ⟨by decide, by decide⟩

/-- Witness for the amended C1 at the `garbage-token` scenario. -/
theorem C1_invalid_token_fallthrough_witness :
    dispatchAuth []
      { method := "POST", headerXConfigKey := some ("garbage-token"),
        queryUuid := none, user := none } =
      .ok (none, [SecEvent.authFailure ("garbage-token")]) :=
  (C1_invalid_token_fallthrough []
    { method := "POST", headerXConfigKey := some ("garbage-token"),
      queryUuid := none, user := none }
    1 60 0 ⟨0, 0⟩ ("garbage-token") (by decide) (Or.inr (by decide))).1

/-- C2 (amended): only POST requests are gated by the quota limiter — a
forwarded POST implies the limiter was consulted and admitted the
request, while a request of any other method is forwarded without the
limiter being consulted at all. -/
theorem C2_admit_gates_post_only (store : Store) (limit period now : Nat)
    (ls : LimiterState) (req : HttpRequest) (r : GateResult)
    (hr : handleProxyRequest store limit period now ls req = .ok r) :
    (req.method = "POST" → r.forwarded = true →
      r.admitCalled = true ∧ (admitCheck limit period now ls).1 = true)
  ∧ (¬ req.method = "POST" → r.forwarded = true ∧ r.admitCalled = false) := by
  rcases hdo : dispatchAuth store req with e | ul
  · simp [handleProxyRequest, hdo] at hr
  · rcases ul with ⟨u, log⟩
    by_cases hm : req.method = "POST"
    · rw [handleProxyRequest_post store limit period now ls req u log hdo hm]
        at hr
      by_cases hp : (admitCheck limit period now ls).1
      · rw [if_pos hp] at hr
        cases Except.ok.inj hr
        exact ⟨fun _ _ => ⟨rfl, hp⟩, fun hn => absurd hm hn⟩
      · rw [if_neg hp] at hr
        cases Except.ok.inj hr
        exact ⟨fun _ hf => by simp at hf, fun hn => absurd hm hn⟩
    · rw [handleProxyRequest_other store limit period now ls req u log hdo hm]
        at hr
      cases Except.ok.inj hr
      exact ⟨fun hmp => absurd hmp hm, fun _ => ⟨rfl, rfl⟩⟩

/-- Counterexample to C2 as stated: a GET request is forwarded although
the quota limiter was never consulted for it. -/
theorem C2_counterexample :
    (handleProxyRequest [] 1 60 0 ⟨0, 0⟩
      { method := "GET", headerXConfigKey := none, queryUuid := none,
        user := none }).toOption.map (fun r => (r.forwarded, r.admitCalled)) =
      some (true, false) := by decide

/-- Witness for the amended C2: a forwarded POST request had the limiter
consulted and admitting. -/
theorem C2_admit_gates_post_only_witness :
    handleProxyRequest [] 1 60 0 ⟨0, 0⟩
      { method := "POST", headerXConfigKey := none, queryUuid := none,
        user := none } =
      .ok { status := 200, forwarded := true, admitCalled := true,
            finalUser := none, secLog := [], limiter := ⟨0, 1⟩ } ∧
    (({ status := 200, forwarded := true, admitCalled := true,
        finalUser := none, secLog := [], limiter := ⟨0, 1⟩ } :
          GateResult).admitCalled = true ∧
      (admitCheck 1 60 0 ⟨0, 0⟩).1 = true) :=
  ⟨by decide,
    (C2_admit_gates_post_only [] 1 60 0 ⟨0, 0⟩
      { method := "POST", headerXConfigKey := none, queryUuid := none,
        user := none }
      { status := 200, forwarded := true, admitCalled := true,
        finalUser := none, secLog := [], limiter := ⟨0, 1⟩ }
      (by decide)).1 rfl rfl⟩

/-- C5: a request the quota limiter rejects is answered 429, is not
forwarded (the rejection is terminal for this request), and the limiter
is evaluated exactly once for it (the final window state is that of a
single admit call — no internal retry).  The 429 mapping of the
rejection is modelled from the spec (§7), the `Ratelimited` handler
being framework configuration outside `src/`. -/
theorem C5_quota_rejection (store : Store) (limit period now : Nat)
    (ls : LimiterState) (req : HttpRequest) (u : Option String)
    (log : List SecEvent)
    (hd : dispatchAuth store req = .ok (u, log))
    (hm : req.method = "POST")
    (hrej : (admitCheck limit period now ls).1 = false) :
    handleProxyRequest store limit period now ls req =
      .ok { status := 429, forwarded := false, admitCalled := true,
            finalUser := u, secLog := log,
            limiter := (admitCheck limit period now ls).2 } := by
  rw [handleProxyRequest_post store limit period now ls req u log hd hm,
    if_neg (by simp [hrej])]

/-- Witness for C5: the second POST inside the window is rejected with
429 and the window state is untouched. -/
theorem C5_quota_rejection_witness :
    handleProxyRequest [] 1 60 10 ⟨0, 1⟩
      { method := "POST", headerXConfigKey := none, queryUuid := none,
        user := none } =
      .ok { status := 429, forwarded := false, admitCalled := true,
            finalUser := none, secLog := [], limiter := ⟨0, 1⟩ } :=
  C5_quota_rejection [] 1 60 10 ⟨0, 1⟩
    { method := "POST", headerXConfigKey := none, queryUuid := none,
      user := none }
    none [] (by decide) rfl (by decide)

/-- C4: modelled from the spec (§4.2) since the window counting lives in
the external `django_ratelimit` package: starting from a fresh window, at
most `limit` admits succeed at times within that window; an admit in the
same window with the count already at `limit` returns false without
mutating the state; and when `now` has reached `windowStart + period`,
count is reset to 0 and `windowStart` to `now` before the admit decision
is evaluated. -/
theorem C4_quota_window (limit period : Nat) (st : LimiterState)
    (times : List Nat) (h0 : st.count = 0)
    (hw : ∀ t ∈ times, t < st.windowStart + period) :
    ((admitTrace limit period st times).1.count true ≤ limit)
  ∧ (∀ now s, limit ≤ s.count → now < s.windowStart + period →
      admitCheck limit period now s = (false, s))
  ∧ (∀ now s, s.windowStart + period ≤ now →
      admitCheck limit period now s = admitCheck limit period now ⟨now, 0⟩) := by
  refine ⟨?_, fun now s hcnt hnow => ?_, fun now s hroll => ?_⟩
  · have := admitTrace_count_le limit period times st hw
    omega
  · exact admitCheck_inWindow_false limit period now s (by omega) (by omega)
  · simp [admitCheck, hroll, ite_self]

/-- Witness for C4 with the source's rate `1/m`: three requests inside one
60-second window admit at most one. -/
theorem C4_quota_window_witness :
    (admitTrace 1 60 ⟨0, 0⟩ [5, 10, 20]).1.count true ≤ 1 :=
  (C4_quota_window 1 60 ⟨0, 0⟩ [5, 10, 20] rfl (by decide)).1

/-- C3: in a uuid-unique store, token resolution succeeds with the bound
owner identity iff a matching record exists and its public flag is true;
for a token that is private, malformed or absent it returns
"unauthenticated" (`.ok none`) rather than crashing (never `.error`);
and on success the dispatch override sets the caller's identity for the
rest of the request to the resolved owner (with the success security-log
entry). -/
theorem C3_token_resolution (store : Store) (hU : UuidUnique store) :
    (∀ token u, resolveToken store token = .ok (some u) ↔
      ∃ r, r ∈ store ∧ pyUuidCanon token = some r.uuid ∧
        r.is_public = true ∧ r.user = u)
  ∧ (∀ token,
      (¬ ∃ r, r ∈ store ∧ pyUuidCanon token = some r.uuid ∧
        r.is_public = true) →
      resolveToken store token = .ok none)
  ∧ (∀ token e, resolveToken store token ≠ .error e)
  ∧ (∀ req token u,
      effectiveToken req.headerXConfigKey req.queryUuid = some token →
      resolveToken store token = .ok (some u) →
      dispatchAuth store req = .ok (some u, [SecEvent.authSuccess u token])) := by
  refine ⟨fun token u => ⟨fun h => ?_, fun h => ?_⟩, fun token hno => ?_,
    fun token e => resolveToken_ne_error store hU token e,
    fun req token u heff hres => ?_⟩
  · rcases hg : objectsGetPublic store token with e' | r
    · rcases e' with _ | _ | _ <;> simp [resolveToken, hg] at h
    · have hr := (objectsGetPublic_ok_iff store hU token r).mp hg
      have hu : r.user = u := by
        simp [resolveToken, hg] at h
        exact h
      exact ⟨r, hr.2.1, hr.1, hr.2.2, hu⟩
  · rcases h with ⟨r, hmem, hcan, hpub, hu⟩
    have hg : objectsGetPublic store token = .ok r :=
      (objectsGetPublic_ok_iff store hU token r).mpr ⟨hcan, hmem, hpub⟩
    simp [resolveToken, hg, hu]
  · rcases objectsGetPublic_fail store hU token hno with hg | hg <;>
      simp [resolveToken, hg]
  · rcases hg : objectsGetPublic store token with e' | r
    · rcases e' with _ | _ | _ <;> simp [resolveToken, hg] at hres
    · have hu : r.user = u := by
        simp [resolveToken, hg] at hres
        exact hres
      simp [dispatchAuth, heff, hg, hu]

/-- Witness for C3 at a concrete one-record store: the public token
resolves to its owner. -/
theorem C3_token_resolution_witness :
    resolveToken
      [⟨"alice", "doc", ("00000000000000000000000000000001"), true⟩]
      ("00000000000000000000000000000001") = .ok (some ("alice")) :=
  ((C3_token_resolution
      [⟨"alice", "doc", ("00000000000000000000000000000001"), true⟩]
      (by simp [UuidUnique])).1 _ _).mpr
    ⟨⟨"alice", "doc", ("00000000000000000000000000000001"), true⟩,
      by simp, by decide, rfl, rfl⟩

/-- C7: flipping a record's public flag via `make_private` immediately
revokes token access — a later request presenting that token is no
longer authenticated as the owner (the lookup fails and the dispatch
leaves the request's user unchanged, logging a failure) — while the
record itself is not deleted (the store keeps its length and the record
survives with `is_public = false`). -/
theorem C7_make_private_revokes (store : Store) (token t : String)
    (hc : pyUuidCanon token = some t) :
    resolveToken (make_private store t) token = .ok none
  ∧ (make_private store t).length = store.length
  ∧ (∀ r, r ∈ store → r.uuid = t →
      { r with is_public := false } ∈ make_private store t)
  ∧ (∀ req, effectiveToken req.headerXConfigKey req.queryUuid = some token →
      dispatchAuth (make_private store t) req =
        .ok (req.user, [SecEvent.authFailure token])) := by
  have hg := objectsGetPublic_make_private store token t hc
  refine ⟨by simp [resolveToken, hg], by simp [make_private],
    fun r hr hrt => ?_, fun req heff => by simp [dispatchAuth, heff, hg]⟩
  refine List.mem_map.mpr ⟨r, hr, ?_⟩
  rw [if_pos (by simp [hrt])]

/-- Witness for C7: a concrete public record; after `make_private` its
token no longer resolves. -/
theorem C7_make_private_revokes_witness :
    resolveToken
      (make_private
        [⟨"alice", "doc", ("00000000000000000000000000000001"), true⟩]
        ("00000000000000000000000000000001"))
      ("00000000000000000000000000000001") = .ok none :=
  (C7_make_private_revokes
    [⟨"alice", "doc", ("00000000000000000000000000000001"), true⟩]
    ("00000000000000000000000000000001")
    ("00000000000000000000000000000001") (by decide)).1

/-- If every connection attempt fails, the retry loop uses up all
remaining retries and reports the upstream unavailable. -/
theorem forwardLoop_allFail (attempts : Nat → AttemptOutcome)
    (hall : ∀ i, attempts i = .connectFail) :
    ∀ (n i : Nat),
      forwardLoop attempts n i = (.upstreamUnavailable, i + n + 1) := by
  intro n
  induction n with
  | zero => intro i; simp [forwardLoop, hall i]
  | succ m ih =>
    intro i
    have := ih (i + 1)
    simp [forwardLoop, hall i, this]
    omega

/-- If the first `k` attempts fail to connect and attempt `k` starts
streaming, the loop stops right there with that stream's outcome. -/
theorem forwardLoop_stream (attempts : Nat → AttemptOutcome) :
    ∀ (k n i : Nat) (chunks : List Nat) (clean : Bool), k ≤ n →
      (∀ j, j < k → attempts (i + j) = .connectFail) →
      attempts (i + k) = .streamStart chunks clean →
      forwardLoop attempts n i = (.streamed chunks clean, i + k + 1) := by
  intro k
  induction k with
  | zero =>
    intro n i chunks clean _ _ hk
    have hk0 : attempts i = .streamStart chunks clean := by simpa using hk
    rcases n with _ | n' <;> simp [forwardLoop, hk0]
  | succ m ih =>
    intro n i chunks clean hkn hfail hk
    have h0 : attempts i = .connectFail := by
      simpa using hfail 0 (Nat.succ_pos m)
    rcases n with _ | n'
    · omega
    · have hrec := ih n' (i + 1) chunks clean (by omega)
        (fun j hj => by
          have h := hfail (j + 1) (by omega)
          rw [show i + 1 + j = i + (j + 1) from by omega]
          exact h)
        (by
          rw [show i + 1 + m = i + (m + 1) from by omega]
          exact hk)
      simp [forwardLoop, h0, hrec]
      omega

/-- C6: modelled from the spec (§4.3) since the connection/retry
machinery lives in the external `revproxy`/`urllib3` stack: on repeated
connection-establishment failure the Forwarder makes exactly
`maxRetries + 1` attempts with the same request (the initial attempt plus
`maxRetries` retries) before surfacing upstream-unavailable; and once an
attempt has started streaming response bytes, its outcome — clean or
truncated — is final, with zero further attempts. -/
theorem C6_forwarder_retries (maxRetries : Nat)
    (attempts : Nat → AttemptOutcome) :
    ((∀ i, attempts i = .connectFail) →
      forward maxRetries attempts = (.upstreamUnavailable, maxRetries + 1))
  ∧ (∀ k chunks clean, k ≤ maxRetries →
      (∀ j, j < k → attempts j = .connectFail) →
      attempts k = .streamStart chunks clean →
      forward maxRetries attempts = (.streamed chunks clean, k + 1)) := by
  constructor
  · intro hall
    have := forwardLoop_allFail attempts hall maxRetries 0
    simpa [forward] using this
  · intro k chunks clean hkm hfail hk
    have := forwardLoop_stream attempts k maxRetries 0 chunks clean hkm
      (fun j hj => by simpa using hfail j hj) (by simpa using hk)
    simpa [forward] using this

/-- Witness for C6 with the source's `retries = 1`: an always-failing
upstream is attempted exactly twice (one retry), and a first attempt that
streams and then breaks is never retried. -/
theorem C6_forwarder_retries_witness :
    forward OpenAIProxyView.retries (fun _ => AttemptOutcome.connectFail) =
      (.upstreamUnavailable, OpenAIProxyView.retries + 1) ∧
    forward OpenAIProxyView.retries
      (fun _ => AttemptOutcome.streamStart [7] false) =
      (.streamed [7] false, 1) :=
  ⟨(C6_forwarder_retries OpenAIProxyView.retries
      (fun _ => AttemptOutcome.connectFail)).1 (fun _ => rfl),
    (C6_forwarder_retries OpenAIProxyView.retries
      (fun _ => AttemptOutcome.streamStart [7] false)).2 0 [7] false
      (by decide) (fun j hj => absurd hj (by omega)) rfl⟩

/-- C8: the streaming attributes of `OpenAIProxyView` as set in the
source: streaming is on (`stream = True`, no whole-body buffering), but
the configured chunk size is 32 bytes — smaller than a single typical
MTU, hence not a small multiple of a typical network MTU / tens of
kilobytes, and contradicting the code's own trailing 8KB comment. -/
theorem C8_chunk_size_eval :
    OpenAIProxyView.chunk_size = 32
  ∧ OpenAIProxyView.chunk_size < OpenAIProxyView.typicalMTU
  ∧ OpenAIProxyView.chunk_size ≠ 8 * 1024
  ∧ OpenAIProxyView.stream = true := by decide

/-- Updating a header key and then reading it back gives the new value. -/
theorem getHeader_setHeader_same (hs : Headers) (k v : String) :
    getHeader (setHeader hs k v) k = some v := by
  induction hs with
  | nil => simp [setHeader, getHeader]
  | cons p t ih =>
    by_cases hp : p.1 == k
    · simp [setHeader, hp, getHeader]
    · simp [setHeader, hp, getHeader, ih]

/-- Updating one header key leaves lookups of other keys unchanged. -/
theorem getHeader_setHeader_other (hs : Headers) (k v k' : String)
    (hne : k' ≠ k) :
    getHeader (setHeader hs k v) k' = getHeader hs k' := by
  induction hs with
  | nil => simp [setHeader, getHeader, beq_iff_eq, Ne.symm hne]
  | cons p t ih =>
    by_cases hp : p.1 == k
    · have hpk : p.1 = k := eq_of_beq hp
      simp [setHeader, hp, getHeader, beq_iff_eq, Ne.symm hne, hpk]
    · simp [setHeader, hp, getHeader, ih]

/-- A key held by no pair in the list looks up to nothing. -/
theorem getHeader_eq_none (hs : Headers) (k : String)
    (h : ∀ p ∈ hs, p.1 ≠ k) : getHeader hs k = none := by
  induction hs with
  | nil => simp [getHeader]
  | cons p t ih =>
    have hp : ¬ (p.1 == k) := by
      simp [beq_iff_eq]
      exact h p (List.mem_cons_self p t)
    simp [getHeader, hp]
    exact ih (fun q hq => h q (List.mem_cons.mpr (Or.inr hq)))

/-- The modelled `revproxy` base headers never carry `Host`. -/
theorem base_proxy_request_headers_host (inbound : Headers)
    (identity : Option String) :
    getHeader (base_proxy_request_headers inbound identity) ("Host") = none := by
  have hfil : ∀ p ∈ inbound.filter
      (fun p => ¬(p.1 == "Host") && ¬(p.1 == "Connection")),
      p.1 ≠ ("Host") := by
    intro p hp
    have := (List.mem_filter.mp hp).2
    have h1 := ((Bool.and_eq_true _ _).mp this).1
    simp [beq_iff_eq] at h1
    exact h1
  rcases identity with _ | u
  · exact getHeader_eq_none _ _ hfil
  · rw [base_proxy_request_headers]
    rw [getHeader_setHeader_other _ _ _ _ (by decide)]
    exact getHeader_eq_none _ _ hfil

/-- C9: the outbound upstream request preserves method, query and body
and rewrites only the host/path; its headers carry `Connection:
keep-alive` and an `Accept-Encoding`, plus the remote-user identity
marker when the caller is authenticated, and do not carry `Host` (nor,
therefore, the inbound request's own `Connection` value, which the
update overwrites with `keep-alive`).  The `revproxy` base header set is
modelled from the spec (§4.3); the three-header update is the source's
`get_proxy_request_headers`. -/
theorem C9_upstream_request (upstreamBase : String) (req : InboundRequest)
    (identity : Option String) :
    (buildUpstreamRequest upstreamBase req identity).method = req.method
  ∧ (buildUpstreamRequest upstreamBase req identity).query = req.query
  ∧ (buildUpstreamRequest upstreamBase req identity).body = req.body
  ∧ (buildUpstreamRequest upstreamBase req identity).url =
      upstreamBase ++ req.path
  ∧ getHeader (buildUpstreamRequest upstreamBase req identity).headers
      ("Connection") = some ("keep-alive")
  ∧ getHeader (buildUpstreamRequest upstreamBase req identity).headers
      ("Accept-Encoding") = some ("gzip, deflate")
  ∧ getHeader (buildUpstreamRequest upstreamBase req identity).headers
      ("Host") = none
  ∧ (∀ u, identity = some u →
      getHeader (buildUpstreamRequest upstreamBase req identity).headers
        ("Remote-User") = some u) := by
  refine ⟨rfl, rfl, rfl, rfl, ?_, ?_, ?_, ?_⟩
  · show getHeader (get_proxy_request_headers req.headers identity) _ = _
    rw [get_proxy_request_headers,
      getHeader_setHeader_other _ _ _ _ (by decide),
      getHeader_setHeader_same]
  · show getHeader (get_proxy_request_headers req.headers identity) _ = _
    rw [get_proxy_request_headers,
      getHeader_setHeader_other _ _ _ _ (by decide),
      getHeader_setHeader_other _ _ _ _ (by decide),
      getHeader_setHeader_same]
  · show getHeader (get_proxy_request_headers req.headers identity) _ = _
    rw [get_proxy_request_headers,
      getHeader_setHeader_other _ _ _ _ (by decide),
      getHeader_setHeader_other _ _ _ _ (by decide),
      getHeader_setHeader_other _ _ _ _ (by decide)]
    exact base_proxy_request_headers_host req.headers identity
  · intro u hu
    show getHeader (get_proxy_request_headers req.headers identity) _ = _
    rw [get_proxy_request_headers,
      getHeader_setHeader_other _ _ _ _ (by decide),
      getHeader_setHeader_other _ _ _ _ (by decide),
      getHeader_setHeader_other _ _ _ _ (by decide),
      hu, base_proxy_request_headers]
    exact getHeader_setHeader_same _ _ _

/-- Witness for C9 at a concrete inbound request that carries `Host` and
`Connection: close`: the outbound headers replace them. -/
theorem C9_upstream_request_witness :
    getHeader
      (buildUpstreamRequest ("http://upstream/")
        { method := "POST", path := "v1/chat", query := "a=1",
          body := [1, 2, 3],
          headers := [(("Host"), ("caller.example")),
                      (("Connection"), ("close")),
                      (("X-Api"), ("k"))] }
        (some ("alice"))).headers ("Connection") = some ("keep-alive") ∧
    getHeader
      (buildUpstreamRequest ("http://upstream/")
        { method := "POST", path := "v1/chat", query := "a=1",
          body := [1, 2, 3],
          headers := [(("Host"), ("caller.example")),
                      (("Connection"), ("close")),
                      (("X-Api"), ("k"))] }
        (some ("alice"))).headers ("Host") = none ∧
    getHeader
      (buildUpstreamRequest ("http://upstream/")
        { method := "POST", path := "v1/chat", query := "a=1",
          body := [1, 2, 3],
          headers := [(("Host"), ("caller.example")),
                      (("Connection"), ("close")),
                      (("X-Api"), ("k"))] }
        (some ("alice"))).headers ("Remote-User") = some ("alice") :=
  ⟨(C9_upstream_request ("http://upstream/")
      { method := "POST", path := "v1/chat", query := "a=1",
        body := [1, 2, 3],
        headers := [(("Host"), ("caller.example")),
                    (("Connection"), ("close")),
                    (("X-Api"), ("k"))] }
      (some ("alice"))).2.2.2.2.1,
    (C9_upstream_request ("http://upstream/")
      { method := "POST", path := "v1/chat", query := "a=1",
        body := [1, 2, 3],
        headers := [(("Host"), ("caller.example")),
                    (("Connection"), ("close")),
                    (("X-Api"), ("k"))] }
      (some ("alice"))).2.2.2.2.2.2.1,
    (C9_upstream_request ("http://upstream/")
      { method := "POST", path := "v1/chat", query := "a=1",
        body := [1, 2, 3],
        headers := [(("Host"), ("caller.example")),
                    (("Connection"), ("close")),
                    (("X-Api"), ("k"))] }
      (some ("alice"))).2.2.2.2.2.2.2 ("alice") rfl⟩

/-- The serializer's in-place update never changes the identifying pair. -/
theorem tncUpdate_key (cid ip : String) (now : Nat) (ua : Option String)
    (r : TncAcceptance) :
    (tncUpdate cid ip now ua r).config_id = r.config_id ∧
    (tncUpdate cid ip now ua r).ip_address = r.ip_address := by
  by_cases hp : (r.config_id == cid && r.ip_address == ip) <;>
    simp [tncUpdate, hp]

/-- At most one record matches a pair in a pair-unique store. -/
theorem tnc_filter_le_one (store : List TncAcceptance) (hU : PairUnique store)
    (cid ip : String) :
    (store.filter
      (fun r => r.config_id == cid && r.ip_address == ip)).length ≤ 1 := by
  have hU' : store.Pairwise (fun a b =>
      (a.config_id, a.ip_address) ≠ (b.config_id, b.ip_address)) := by
    refine hU.imp ?_
    intro a b h
    simp only [ne_eq, Prod.mk.injEq]
    exact h
  exact length_filter_le_one (fun r => (r.config_id, r.ip_address))
    (fun r => r.config_id == cid && r.ip_address == ip) (cid, ip)
    (fun a ha => by
      have h := (Bool.and_eq_true _ _).mp ha
      simp [eq_of_beq h.1, eq_of_beq h.2]) store hU'

/-- C10: recording a terms-of-service acceptance is idempotent per
`(config_id, ip_address)`: on a pair-unique store the create path never
raises; it preserves pair-uniqueness; afterwards the single-record
acceptance check finds exactly one record for the pair, carrying the
fresh timestamp (no duplicate is ever created through this endpoint);
and the store keeps its length when the pair already existed (in-place
update) and grows by exactly one when it did not. -/
theorem C10_tnc_idempotent (store : List TncAcceptance) (hU : PairUnique store)
    (cid ip : String) (now : Nat) (ua : Option String) :
    (∀ e, tncSerializerCreate store cid ip now ua ≠ .error e)
  ∧ (∀ s', tncSerializerCreate store cid ip now ua = .ok s' →
      PairUnique s'
      ∧ check_tnc_acceptance s' cid ip = .ok (some now)
      ∧ ((∃ r, r ∈ store ∧ r.config_id = cid ∧ r.ip_address = ip) →
          s'.length = store.length)
      ∧ ((¬ ∃ r, r ∈ store ∧ r.config_id = cid ∧ r.ip_address = ip) →
          s'.length = store.length + 1)) := by
  rcases hf : store.filter (fun r => r.config_id == cid && r.ip_address == ip)
    with _ | ⟨r0, _ | ⟨r1, t⟩⟩
  · refine ⟨fun e => by simp [tncSerializerCreate, hf], fun s' hs => ?_⟩
    have hs' : s' = store ++ [⟨cid, ip, now, ua⟩] := by
      simp [tncSerializerCreate, hf] at hs
      exact hs.symm
    subst hs'
    have habs : ∀ a ∈ store, ¬(a.config_id = cid ∧ a.ip_address = ip) := by
      intro a ha hc
      have := List.filter_eq_nil_iff.mp hf a ha
      simp [hc.1, hc.2] at this
    refine ⟨?_, ?_, ?_, by simp⟩
    · refine List.pairwise_append.mpr ⟨hU, List.pairwise_singleton _ _, ?_⟩
      intro a ha b hb
      have hb' : b = ⟨cid, ip, now, ua⟩ := by simpa using hb
      subst hb'
      intro hcon
      exact habs a ha ⟨hcon.1, hcon.2⟩
    · simp [check_tnc_acceptance, List.filter_append, hf]
    · rintro ⟨r, hr, hc1, hc2⟩
      exact absurd ⟨hc1, hc2⟩ (habs r hr)
  · have hr0 : r0 ∈ store ∧
        (r0.config_id == cid && r0.ip_address == ip) = true := by
      have hmem : r0 ∈ store.filter
          (fun r => r.config_id == cid && r.ip_address == ip) := by
        rw [hf]; exact List.mem_cons_self r0 []
      exact List.mem_filter.mp hmem
    refine ⟨fun e => by simp [tncSerializerCreate, hf], fun s' hs => ?_⟩
    have hs' : s' = store.map (tncUpdate cid ip now ua) := by
      simp [tncSerializerCreate, hf] at hs
      exact hs.symm
    subst hs'
    have hcomp : ∀ a ∈ store,
        ((fun r => r.config_id == cid && r.ip_address == ip) ∘
          tncUpdate cid ip now ua) a =
        (fun r => r.config_id == cid && r.ip_address == ip) a := by
      intro a _
      have h := tncUpdate_key cid ip now ua a
      simp [Function.comp, h.1, h.2]
    have hfilmap :
        (store.map (tncUpdate cid ip now ua)).filter
          (fun r => r.config_id == cid && r.ip_address == ip) =
        [tncUpdate cid ip now ua r0] := by
      rw [List.filter_map, List.filter_congr hcomp, hf]
      rfl
    refine ⟨?_, ?_, by simp, ?_⟩
    · refine List.pairwise_map.mpr ?_
      refine hU.imp ?_
      intro a b h hcon
      have ha := tncUpdate_key cid ip now ua a
      have hb := tncUpdate_key cid ip now ua b
      rw [ha.1, hb.1] at hcon
      rw [ha.2, hb.2] at hcon
      exact h hcon
    · simp [check_tnc_acceptance, hfilmap, tncUpdate, hr0.2]
    · intro habs
      have h := (Bool.and_eq_true _ _).mp hr0.2
      exact absurd ⟨r0, hr0.1, eq_of_beq h.1, eq_of_beq h.2⟩ habs
  · exfalso
    have := tnc_filter_le_one store hU cid ip
    rw [hf] at this
    simp at this

/-- Witness for C10: accepting again for the same pair updates the
timestamp in place, and the acceptance check then reports the new
timestamp. -/
theorem C10_tnc_idempotent_witness :
    tncSerializerCreate [⟨"cfg", "1.2.3.4", 5, none⟩] ("cfg") ("1.2.3.4")
      9 none = .ok [⟨"cfg", "1.2.3.4", 9, none⟩] ∧
    check_tnc_acceptance [⟨"cfg", "1.2.3.4", 9, none⟩] ("cfg") ("1.2.3.4") =
      .ok (some 9) :=
  ⟨by decide,
    ((C10_tnc_idempotent [⟨"cfg", "1.2.3.4", 5, none⟩]
        (List.pairwise_singleton _ _) ("cfg") ("1.2.3.4") 9 none).2
      [⟨"cfg", "1.2.3.4", 9, none⟩] (by decide)).2.1⟩

end Sitechime
